import Mathlib

/-!
Shallow embedding of the SCGE simulation-and-metrics pipeline.

Source files embedded here:
- src/Desktop/scge/price_distribution.py : simulate_log_return_paths
- src/Desktop/scge/nvdd.py : VolatilityDragConfig, StructuralDecayMonitor
  (load_simulated_returns, compute_structural_greeks)

Modelling conventions:
- Python floats are modelled as exact rationals; a float NaN is modelled as
  the value none of type Option ℚ (a finite float is some q).
- numpy arrays are lists of lists (one inner list per path row).
- A Python function that can raise is an Except value; each distinct raise
  site gets its own error constructor.
- The numeric values produced by the numpy PCG64 generator are library
  internals outside this repository; they are modelled by a fixed concrete
  deterministic stand-in stream (see normalDraw) that preserves exactly what
  the source relies on: each draw is a pure function of (seed, index), the
  scale is a pure function of forward_variance, and a negative
  forward_variance makes the scale (np.sqrt of a negative float) NaN, which
  makes every draw NaN.
-/

namespace SCGE

/-- A float value of the source program: some q is a finite float modelled
exactly as a rational, none is NaN. -/
abbrev RFloat : Type := Option ℚ

/-- Error raised by simulate_log_return_paths. The source performs no
validation of its own; the only raise site is inside the numpy allocation
rng.normal(..., size=(n_paths, days_to_expiry)), which rejects a negative
dimension with ValueError. -/
inductive SimError where
  | negativeDimensions
deriving DecidableEq

/-- Deterministic stand-in for the i-th draw of the stream
default_rng(seed).normal(0, sigma_daily): a pure function of
(forward_variance, seed, i). For forward_variance < 0 the source computes
sigma_annual = np.sqrt(forward_variance) = NaN, hence sigma_daily = NaN and
every draw is NaN (modelled as none); otherwise the draw is a finite float.
The particular rational returned stands in for the numpy PCG64 value, which
is a library internal outside this repository. -/
def normalDraw (forward_variance : ℚ) (seed : ℤ) (i : ℕ) : RFloat :=
  if forward_variance < 0 then none
  else some (forward_variance * ((((seed.natAbs + i + 1) * 2654435761) % 1000003 : ℕ) : ℚ)
    / 1000003 - 1 / 2)

/-- Embedding of simulate_log_return_paths (price_distribution.py, lines 4-21).
spot is accepted and unused, exactly as in the source (the price-path
conversion that would use it is commented out). There is no validation:
the function fails only when numpy rejects a negative array dimension, and
it returns n_paths rows of days_to_expiry draws otherwise. In the source
n_paths and seed default to 5000 and 42; callers here always pass them. -/
def simulate_log_return_paths (spot forward_variance : ℚ) (days_to_expiry n_paths seed : ℤ) :
    Except SimError (List (List RFloat)) :=
  if days_to_expiry < 0 ∨ n_paths < 0 then Except.error SimError.negativeDimensions
  else Except.ok ((List.range n_paths.toNat).map (fun p =>
    (List.range days_to_expiry.toNat).map (fun j =>
      normalDraw forward_variance seed (p * days_to_expiry.toNat + j))))

/-- The process-wide numpy global random state. The source builds a local
generator with np.random.default_rng(seed) and never touches the module
global state; the embedding threads that state explicitly so that its
non-use is a statement, not an assumption. -/
abbrev NumpyGlobalRandomState : Type := ℤ

/-- simulate_log_return_paths as it runs inside a process that carries the
numpy global random state: the source neither reads nor writes that state,
so the embedded call ignores the incoming state and returns it unchanged. -/
def simulateInProcess (spot forward_variance : ℚ) (days_to_expiry n_paths seed : ℤ)
    (g : NumpyGlobalRandomState) :
    Except SimError (List (List RFloat)) × NumpyGlobalRandomState :=
  (simulate_log_return_paths spot forward_variance days_to_expiry n_paths seed, g)

/-- Embedding of VolatilityDragConfig (nvdd.py, lines 8-13). Source defaults:
leverage_k = 1.0, lookback_window = 10, risk_free_rate = 0.0. -/
structure VolatilityDragConfig where
  ticker : String
  leverage_k : ℚ
  lookback_window : ℕ
  risk_free_rate : ℚ
deriving DecidableEq

/-- Error raised by compute_structural_greeks: the single raise site is
RuntimeError("No simulated paths loaded.") behind the hasattr check. -/
inductive ComputeError where
  | noData
deriving DecidableEq

/-- Embedding of the result dict of compute_structural_greeks. Each field is
np.mean of a list of finite floats, which is NaN (none) when the list is
empty and finite otherwise. -/
structure AggregateMetrics where
  avg_trend : RFloat
  avg_drag : RFloat
  avg_efficiency : RFloat
deriving DecidableEq

/-- Embedding of the StructuralDecayMonitor state: the config fixed at
construction, and the sim_paths attribute, which is absent (none) until
load_simulated_returns sets it. The unused self.data field is omitted. -/
structure StructuralDecayMonitor where
  config : VolatilityDragConfig
  sim_paths : Option (List (List ℚ))

/-- Embedding of StructuralDecayMonitor.__init__: the sim_paths attribute
does not exist yet. -/
def initMonitor (config : VolatilityDragConfig) : StructuralDecayMonitor :=
  { config := config, sim_paths := none }

/-- Embedding of load_simulated_returns (nvdd.py, lines 25-29): stores the
full simulation matrix on self. -/
def load_simulated_returns (self : StructuralDecayMonitor) (m : List (List ℚ)) :
    StructuralDecayMonitor :=
  { self with sim_paths := some m }

/-- The epsilon literal 1e-8 of nvdd.py line 53. -/
def epsilon : ℚ := 1 / 100000000

/-- Embedding of the slice window = path[-w:] (nvdd.py, line 49). Python
slice semantics: for w = 0, path[-0:] is the whole list; for w > 0 it is
the last w elements, i.e. drop (length - w) under the guard length ≥ w. -/
def windowSlice (w : ℕ) (path : List ℚ) : List ℚ :=
  if w = 0 then path else path.drop (path.length - w)

/-- trend = abs(window.sum()) (nvdd.py, line 50). -/
def pathTrend (w : ℕ) (path : List ℚ) : ℚ :=
  |(windowSlice w path).sum|

/-- var_sum = (window**2).sum() (nvdd.py, line 51). -/
def pathVarSum (w : ℕ) (path : List ℚ) : ℚ :=
  ((windowSlice w path).map (fun r => r ^ 2)).sum

/-- drag = (k**2 / 2) * var_sum (nvdd.py, line 52). -/
def pathDrag (k : ℚ) (w : ℕ) (path : List ℚ) : ℚ :=
  (k ^ 2 / 2) * pathVarSum w path

/-- eff = trend / (drag + 1e-8) (nvdd.py, line 53). -/
def pathEff (k : ℚ) (w : ℕ) (path : List ℚ) : ℚ :=
  pathTrend w path / (pathDrag k w path + epsilon)

/-- The rows that survive the guard if len(path) < w: continue
(nvdd.py, lines 46-47): exactly the rows of length at least w, in order. -/
def includedPaths (w : ℕ) (m : List (List ℚ)) : List (List ℚ) :=
  m.filter (fun path => ! decide (path.length < w))

/-- np.mean of a list of finite floats: NaN (none) on the empty list, the
exact arithmetic mean otherwise. -/
def npMean (xs : List ℚ) : RFloat :=
  if xs.isEmpty then none else some (xs.sum / xs.length)

/-- Embedding of compute_structural_greeks (nvdd.py, lines 31-63): raise if
the sim_paths attribute is absent; otherwise reduce each sufficiently long
row to (trend, drag, eff), collect the three lists and return their
np.mean values. The source loop that appends to three accumulator lists is
rendered as a filter of the rows followed by one map per accumulator. -/
def compute_structural_greeks (self : StructuralDecayMonitor) :
    Except ComputeError AggregateMetrics :=
  match self.sim_paths with
  | none => Except.error ComputeError.noData
  | some m =>
    let k := self.config.leverage_k
    let w := self.config.lookback_window
    let inc := includedPaths w m
    Except.ok
      { avg_trend := npMean (inc.map (pathTrend w))
        avg_drag := npMean (inc.map (pathDrag k w))
        avg_efficiency := npMean (inc.map (pathEff k w)) }

/-- The last w entries of a list, written as the spec writes it (take w from
the reversed list); used to state claims about the window independently of
the slice arithmetic of the source. -/
def lastEntries (w : ℕ) (path : List ℚ) : List ℚ :=
  (path.reverse.take w).reverse

theorem windowSlice_eq_lastEntries (w : ℕ) (path : List ℚ) (hw : 0 < w) :
    windowSlice w path = lastEntries w path := by
  unfold windowSlice lastEntries
  rw [if_neg (Nat.pos_iff_ne_zero.mp hw)]
  rw [← List.rtake_eq_reverse_take_reverse]
  rfl

/-- C4: the simulation is deterministic: for a fixed tuple
(forward_variance, days_to_expiry, n_paths, seed), two calls made in the same
process produce identical matrices regardless of the numpy global random
state, and the call leaves that global state untouched (the generator is
seeded exclusively from the given seed, with no hidden global state shared
between calls). -/
theorem C4_simulation_deterministic (spot forward_variance : ℚ)
    (days_to_expiry n_paths seed : ℤ) (g1 g2 : NumpyGlobalRandomState) :
    (simulateInProcess spot forward_variance days_to_expiry n_paths seed g1).1
      = (simulateInProcess spot forward_variance days_to_expiry n_paths seed g2).1
    ∧ (simulateInProcess spot forward_variance days_to_expiry n_paths seed g1).2 = g1 :=
  ⟨rfl, rfl⟩

/-- C5: for every valid configuration (days_to_expiry > 0, n_paths > 0,
forward_variance ≥ 0) the simulation returns a matrix with exactly n_paths
rows and exactly days_to_expiry columns. -/
theorem C5_matrix_shape (spot forward_variance : ℚ) (days_to_expiry n_paths seed : ℤ)
    (hd : 0 < days_to_expiry) (hn : 0 < n_paths) (hv : 0 ≤ forward_variance) :
    ∃ m, simulate_log_return_paths spot forward_variance days_to_expiry n_paths seed
        = Except.ok m
      ∧ m.length = n_paths.toNat ∧ ∀ row ∈ m, row.length = days_to_expiry.toNat := by
  refine ⟨(List.range n_paths.toNat).map (fun p =>
    (List.range days_to_expiry.toNat).map (fun j =>
      normalDraw forward_variance seed (p * days_to_expiry.toNat + j))), ?_, ?_, ?_⟩
  · unfold simulate_log_return_paths
    rw [if_neg (by omega)]
  · simp
  · intro row hrow
    simp only [List.mem_map, List.mem_range] at hrow
    obtain ⟨p, hp, rfl⟩ := hrow
    simp

/-- Witness for C5 at spot = 100, forward_variance = 1, days_to_expiry = 2,
n_paths = 3, seed = 0. -/
theorem C5_matrix_shape_witness :
    ((0:ℤ) < 2 ∧ (0:ℤ) < 3 ∧ (0:ℚ) ≤ 1)
    ∧ ∃ m, simulate_log_return_paths 100 1 2 3 0 = Except.ok m
        ∧ m.length = (3:ℤ).toNat ∧ ∀ row ∈ m, row.length = (2:ℤ).toNat :=
  ⟨⟨by decide, by decide, by norm_num⟩,
    C5_matrix_shape 100 1 2 3 0 (by decide) (by decide) (by norm_num)⟩

/-- C6: compute_structural_greeks invoked on a freshly constructed monitor
(no matrix supplied) fails with the no-data error; once a matrix has been
supplied via load_simulated_returns it never fails with that error. -/
theorem C6_no_data_lifecycle (cfg : VolatilityDragConfig) :
    compute_structural_greeks (initMonitor cfg) = Except.error ComputeError.noData
    ∧ ∀ m : List (List ℚ),
        compute_structural_greeks (load_simulated_returns (initMonitor cfg) m)
          ≠ Except.error ComputeError.noData := by
  refine ⟨rfl, ?_⟩
  intro m h
  simp [compute_structural_greeks, load_simulated_returns, initMonitor] at h

theorem sumSq_nonneg (l : List ℚ) : 0 ≤ (l.map (fun r => r ^ 2)).sum := by
  apply List.sum_nonneg
  intro x hx
  simp only [List.mem_map] at hx
  obtain ⟨a, _, rfl⟩ := hx
  exact sq_nonneg a

/-- C3: for a path of length at least lookback_window (a positive integer per
the data model), the per-path metrics computed by the source equal: trend =
the absolute sum of the last lookback_window entries, drag = (leverage_k^2/2)
times the sum of squares of those entries, and efficiency = trend divided by
(drag + 1e-8); the epsilon 1e-8 appears only in the efficiency denominator
and in no other term. -/
theorem C3_per_path_formulas (k : ℚ) (w : ℕ) (path : List ℚ)
    (hw : 0 < w) (hlen : w ≤ path.length) :
    pathTrend w path = |(lastEntries w path).sum|
    ∧ pathDrag k w path = k ^ 2 / 2 * ((lastEntries w path).map (fun r => r ^ 2)).sum
    ∧ pathEff k w path = pathTrend w path / (pathDrag k w path + 1 / 100000000) := by
  refine ⟨?_, ?_, ?_⟩
  · rw [pathTrend, windowSlice_eq_lastEntries w path hw]
  · rw [pathDrag, pathVarSum, windowSlice_eq_lastEntries w path hw]
  · rfl

/-- Witness for C3 at k = 3, w = 2, path = [5, 1, 2]. -/
theorem C3_per_path_formulas_witness :
    (0 < 2 ∧ 2 ≤ [(5:ℚ), 1, 2].length)
    ∧ (pathTrend 2 [(5:ℚ), 1, 2] = |(lastEntries 2 [(5:ℚ), 1, 2]).sum|
      ∧ pathDrag 3 2 [(5:ℚ), 1, 2]
          = (3:ℚ) ^ 2 / 2 * ((lastEntries 2 [(5:ℚ), 1, 2]).map (fun r => r ^ 2)).sum
      ∧ pathEff 3 2 [(5:ℚ), 1, 2]
          = pathTrend 2 [(5:ℚ), 1, 2] / (pathDrag 3 2 [(5:ℚ), 1, 2] + 1 / 100000000)) :=
  ⟨⟨by decide, by decide⟩, C3_per_path_formulas 3 2 [5, 1, 2] (by decide) (by decide)⟩

/-- C8: with leverage_k = 0, every included path has drag 0 and efficiency
trend / 1e-8 = trend * 1e8, an exact finite rational; and the computation
on any loaded matrix returns normally, with no division-by-zero failure. -/
theorem C8_zero_leverage_guard (cfg : VolatilityDragConfig) (m : List (List ℚ))
    (path : List ℚ) (hk : cfg.leverage_k = 0)
    (hlen : cfg.lookback_window ≤ path.length) :
    pathDrag cfg.leverage_k cfg.lookback_window path = 0
    ∧ pathEff cfg.leverage_k cfg.lookback_window path
        = pathTrend cfg.lookback_window path * 100000000
    ∧ ∃ r, compute_structural_greeks (load_simulated_returns (initMonitor cfg) m)
        = Except.ok r := by
  have hdrag : pathDrag cfg.leverage_k cfg.lookback_window path = 0 := by
    rw [hk, pathDrag]
    ring
  refine ⟨hdrag, ?_, ⟨_, rfl⟩⟩
  rw [pathEff, hdrag, zero_add]
  show pathTrend cfg.lookback_window path / (1 / 100000000) = _
  rw [div_div_eq_mul_div, div_one]

/-- Witness for C8 at cfg = ("NVDD", k = 0, w = 2, r = 0), matrix [[1, 2]],
path [1, 2]. -/
theorem C8_zero_leverage_guard_witness :
    ((VolatilityDragConfig.mk "NVDD" 0 2 0).leverage_k = 0
      ∧ (VolatilityDragConfig.mk "NVDD" 0 2 0).lookback_window ≤ [(1:ℚ), 2].length)
    ∧ (pathDrag (VolatilityDragConfig.mk "NVDD" 0 2 0).leverage_k
          (VolatilityDragConfig.mk "NVDD" 0 2 0).lookback_window [(1:ℚ), 2] = 0
      ∧ pathEff (VolatilityDragConfig.mk "NVDD" 0 2 0).leverage_k
          (VolatilityDragConfig.mk "NVDD" 0 2 0).lookback_window [(1:ℚ), 2]
          = pathTrend (VolatilityDragConfig.mk "NVDD" 0 2 0).lookback_window [(1:ℚ), 2]
              * 100000000
      ∧ ∃ r, compute_structural_greeks (load_simulated_returns
          (initMonitor (VolatilityDragConfig.mk "NVDD" 0 2 0)) [[(1:ℚ), 2]])
          = Except.ok r) :=
  ⟨⟨rfl, by decide⟩,
    C8_zero_leverage_guard (VolatilityDragConfig.mk "NVDD" 0 2 0) [[1, 2]] [1, 2]
      rfl (by decide)⟩

/-- C9: for a fixed path and window lengths 1 ≤ w1 ≤ w2 ≤ path length
(lookback_window is a positive integer per the data model), the windowed sum
of squares computed with w2 is at least the one computed with w1, and hence
for fixed leverage_k the per-path drag is monotone non-decreasing in the
window length. -/
theorem C9_windowed_varsum_monotone (k : ℚ) (path : List ℚ) (w1 w2 : ℕ)
    (hw1 : 0 < w1) (h12 : w1 ≤ w2) (h2 : w2 ≤ path.length) :
    pathVarSum w1 path ≤ pathVarSum w2 path
    ∧ pathDrag k w1 path ≤ pathDrag k w2 path := by
  have hvs : pathVarSum w1 path ≤ pathVarSum w2 path := by
    unfold pathVarSum windowSlice
    rw [if_neg (by omega), if_neg (by omega)]
    have hsplit : path.drop (path.length - w1)
        = (path.drop (path.length - w2)).drop (w2 - w1) := by
      rw [List.drop_drop]
      congr 1
      omega
    rw [hsplit]
    calc (((path.drop (path.length - w2)).drop (w2 - w1)).map (fun r => r ^ 2)).sum
        ≤ (((path.drop (path.length - w2)).take (w2 - w1)).map (fun r => r ^ 2)).sum
          + (((path.drop (path.length - w2)).drop (w2 - w1)).map (fun r => r ^ 2)).sum := by
          have := sumSq_nonneg ((path.drop (path.length - w2)).take (w2 - w1))
          linarith
      _ = ((path.drop (path.length - w2)).map (fun r => r ^ 2)).sum := by
          rw [← List.sum_append, ← List.map_append, List.take_append_drop]
  refine ⟨hvs, ?_⟩
  unfold pathDrag
  apply mul_le_mul_of_nonneg_left hvs
  positivity

/-- Witness for C9 at k = 2, path = [3, 1, 2], w1 = 1, w2 = 3. -/
theorem C9_windowed_varsum_monotone_witness :
    (0 < 1 ∧ 1 ≤ 3 ∧ 3 ≤ [(3:ℚ), 1, 2].length)
    ∧ (pathVarSum 1 [(3:ℚ), 1, 2] ≤ pathVarSum 3 [(3:ℚ), 1, 2]
      ∧ pathDrag 2 1 [(3:ℚ), 1, 2] ≤ pathDrag 2 3 [(3:ℚ), 1, 2]) :=
  ⟨⟨by decide, by decide, by decide⟩,
    C9_windowed_varsum_monotone 2 [3, 1, 2] 1 3 (by decide) (by decide) (by decide)⟩

/-- C10: locality of the reduction: two paths of equal length, at least
lookback_window (a positive integer per the data model), that agree on their
last lookback_window entries yield identical per-path trend, drag and
efficiency, whatever their earlier entries are. -/
theorem C10_reduction_locality (k : ℚ) (w : ℕ) (p1 p2 : List ℚ) (hw : 0 < w)
    (hlen : p1.length = p2.length) (h1 : w ≤ p1.length)
    (hagree : lastEntries w p1 = lastEntries w p2) :
    pathTrend w p1 = pathTrend w p2
    ∧ pathDrag k w p1 = pathDrag k w p2
    ∧ pathEff k w p1 = pathEff k w p2 := by
  have hwin : windowSlice w p1 = windowSlice w p2 := by
    rw [windowSlice_eq_lastEntries w p1 hw, windowSlice_eq_lastEntries w p2 hw, hagree]
  refine ⟨?_, ?_, ?_⟩
  · rw [pathTrend, pathTrend, hwin]
  · rw [pathDrag, pathDrag, pathVarSum, pathVarSum, hwin]
  · rw [pathEff, pathEff, pathTrend, pathTrend, pathDrag, pathDrag,
      pathVarSum, pathVarSum, hwin]

/-- Witness for C10 at k = 1, w = 2, p1 = [7, 1, 2], p2 = [9, 1, 2]. -/
theorem C10_reduction_locality_witness :
    (0 < 2 ∧ [(7:ℚ), 1, 2].length = [(9:ℚ), 1, 2].length ∧ 2 ≤ [(7:ℚ), 1, 2].length
      ∧ lastEntries 2 [(7:ℚ), 1, 2] = lastEntries 2 [(9:ℚ), 1, 2])
    ∧ (pathTrend 2 [(7:ℚ), 1, 2] = pathTrend 2 [(9:ℚ), 1, 2]
      ∧ pathDrag 1 2 [(7:ℚ), 1, 2] = pathDrag 1 2 [(9:ℚ), 1, 2]
      ∧ pathEff 1 2 [(7:ℚ), 1, 2] = pathEff 1 2 [(9:ℚ), 1, 2]) :=
  ⟨⟨by decide, by decide, by decide, by decide⟩,
    C10_reduction_locality 1 2 [7, 1, 2] [9, 1, 2] (by decide) (by decide) (by decide)
      (by decide)⟩

theorem mem_includedPaths (w : ℕ) (m : List (List ℚ)) (p : List ℚ)
    (hp : p ∈ m) (hlen : w ≤ p.length) : p ∈ includedPaths w m := by
  unfold includedPaths
  rw [List.mem_filter]
  refine ⟨hp, ?_⟩
  simp [Nat.not_lt.mpr hlen]

theorem npMean_of_ne_nil (inc : List (List ℚ)) (f : List ℚ → ℚ) (hne : inc ≠ []) :
    npMean (inc.map f) = some ((inc.map f).sum / inc.length) := by
  unfold npMean
  rw [if_neg, List.length_map]
  simp [List.isEmpty_iff, hne]

/-- C7: when at least one path has length at least lookback_window, every
shorter path is excluded from aggregation without raising, and the three
aggregate fields are the arithmetic means of trend, drag and efficiency over
exactly the included paths (the rows the length filter keeps). -/
theorem C7_means_over_included_paths (cfg : VolatilityDragConfig) (m : List (List ℚ))
    (h : ∃ p ∈ m, cfg.lookback_window ≤ p.length) :
    compute_structural_greeks (load_simulated_returns (initMonitor cfg) m)
      = Except.ok
        { avg_trend := some (((includedPaths cfg.lookback_window m).map
            (pathTrend cfg.lookback_window)).sum
              / (includedPaths cfg.lookback_window m).length)
          avg_drag := some (((includedPaths cfg.lookback_window m).map
            (pathDrag cfg.leverage_k cfg.lookback_window)).sum
              / (includedPaths cfg.lookback_window m).length)
          avg_efficiency := some (((includedPaths cfg.lookback_window m).map
            (pathEff cfg.leverage_k cfg.lookback_window)).sum
              / (includedPaths cfg.lookback_window m).length) } := by
  have hne : includedPaths cfg.lookback_window m ≠ [] := by
    obtain ⟨p, hp, hlen⟩ := h
    intro hnil
    have hmem := mem_includedPaths cfg.lookback_window m p hp hlen
    rw [hnil] at hmem
    exact absurd hmem (List.not_mem_nil p)
  have hcompute : compute_structural_greeks (load_simulated_returns (initMonitor cfg) m)
      = Except.ok
        { avg_trend := npMean ((includedPaths cfg.lookback_window m).map
            (pathTrend cfg.lookback_window))
          avg_drag := npMean ((includedPaths cfg.lookback_window m).map
            (pathDrag cfg.leverage_k cfg.lookback_window))
          avg_efficiency := npMean ((includedPaths cfg.lookback_window m).map
            (pathEff cfg.leverage_k cfg.lookback_window)) } := rfl
  rw [hcompute, npMean_of_ne_nil _ _ hne, npMean_of_ne_nil _ _ hne,
    npMean_of_ne_nil _ _ hne]

/-- Witness for C7 at cfg = ("T", k = 1, w = 2, r = 0) and matrix
[[1, 2], [3]]: the second row is shorter than the window and is excluded. -/
theorem C7_means_over_included_paths_witness :
    (∃ p ∈ [[(1:ℚ), 2], [3]],
        (VolatilityDragConfig.mk "T" 1 2 0).lookback_window ≤ p.length)
    ∧ compute_structural_greeks (load_simulated_returns
        (initMonitor (VolatilityDragConfig.mk "T" 1 2 0)) [[(1:ℚ), 2], [3]])
      = Except.ok
        { avg_trend := some (((includedPaths
            (VolatilityDragConfig.mk "T" 1 2 0).lookback_window [[(1:ℚ), 2], [3]]).map
              (pathTrend (VolatilityDragConfig.mk "T" 1 2 0).lookback_window)).sum
            / (includedPaths (VolatilityDragConfig.mk "T" 1 2 0).lookback_window
                [[(1:ℚ), 2], [3]]).length)
          avg_drag := some (((includedPaths
            (VolatilityDragConfig.mk "T" 1 2 0).lookback_window [[(1:ℚ), 2], [3]]).map
              (pathDrag (VolatilityDragConfig.mk "T" 1 2 0).leverage_k
                (VolatilityDragConfig.mk "T" 1 2 0).lookback_window)).sum
            / (includedPaths (VolatilityDragConfig.mk "T" 1 2 0).lookback_window
                [[(1:ℚ), 2], [3]]).length)
          avg_efficiency := some (((includedPaths
            (VolatilityDragConfig.mk "T" 1 2 0).lookback_window [[(1:ℚ), 2], [3]]).map
              (pathEff (VolatilityDragConfig.mk "T" 1 2 0).leverage_k
                (VolatilityDragConfig.mk "T" 1 2 0).lookback_window)).sum
            / (includedPaths (VolatilityDragConfig.mk "T" 1 2 0).lookback_window
                [[(1:ℚ), 2], [3]]).length) } :=
  ⟨⟨[1, 2], by decide⟩,
    C7_means_over_included_paths (VolatilityDragConfig.mk "T" 1 2 0) [[1, 2], [3]]
      ⟨[1, 2], by decide⟩⟩

/-- C1 counterexample: with lookback_window = 10 and the single path [1]
(every row shorter than the window), compute_structural_greeks returns
normally with all three aggregates NaN (np.mean of an empty list); it does
not fail with any error, contradicting the claimed insufficient-data
failure. -/
theorem C1_counterexample_returns_nan :
    compute_structural_greeks (load_simulated_returns
        (initMonitor (VolatilityDragConfig.mk "NVDD" 1 10 0)) [[(1:ℚ)]])
      = Except.ok (AggregateMetrics.mk none none none)
    ∧ ¬ ∃ e, compute_structural_greeks (load_simulated_returns
        (initMonitor (VolatilityDragConfig.mk "NVDD" 1 10 0)) [[(1:ℚ)]])
      = Except.error e := by
  have h1 : compute_structural_greeks (load_simulated_returns
      (initMonitor (VolatilityDragConfig.mk "NVDD" 1 10 0)) [[(1:ℚ)]])
      = Except.ok (AggregateMetrics.mk none none none) := by rfl
  refine ⟨h1, ?_⟩
  rintro ⟨e, he⟩
  rw [h1] at he
  exact Except.noConfusion he

/-- C1 amended: if every row of the supplied matrix is shorter than
lookback_window, compute_structural_greeks returns normally with all three
aggregate fields NaN (the np.mean of an empty list) instead of raising an
insufficient-data error. -/
theorem C1_all_rows_short_yields_nan_means (cfg : VolatilityDragConfig)
    (m : List (List ℚ)) (h : ∀ p ∈ m, p.length < cfg.lookback_window) :
    compute_structural_greeks (load_simulated_returns (initMonitor cfg) m)
      = Except.ok (AggregateMetrics.mk none none none) := by
  have hinc : includedPaths cfg.lookback_window m = [] := by
    unfold includedPaths
    rw [List.filter_eq_nil_iff]
    intro p hp
    simp [h p hp]
  have hcompute : compute_structural_greeks (load_simulated_returns (initMonitor cfg) m)
      = Except.ok
        { avg_trend := npMean ((includedPaths cfg.lookback_window m).map
            (pathTrend cfg.lookback_window))
          avg_drag := npMean ((includedPaths cfg.lookback_window m).map
            (pathDrag cfg.leverage_k cfg.lookback_window))
          avg_efficiency := npMean ((includedPaths cfg.lookback_window m).map
            (pathEff cfg.leverage_k cfg.lookback_window)) } := rfl
  rw [hcompute, hinc]
  rfl

/-- Witness for the amended C1 at cfg = ("T", k = 1, w = 3, r = 0) and the
matrix [[1, 2]], whose only row is shorter than the window. -/
theorem C1_all_rows_short_yields_nan_means_witness :
    (∀ p ∈ [[(1:ℚ), 2]], p.length < (VolatilityDragConfig.mk "T" 1 3 0).lookback_window)
    ∧ compute_structural_greeks (load_simulated_returns
        (initMonitor (VolatilityDragConfig.mk "T" 1 3 0)) [[(1:ℚ), 2]])
      = Except.ok (AggregateMetrics.mk none none none) :=
  ⟨by decide,
    C1_all_rows_short_yields_nan_means (VolatilityDragConfig.mk "T" 1 3 0) [[1, 2]]
      (by decide)⟩

/-- C2 counterexample: at days_to_expiry = 0 (an input the claim says must
fail with a configuration error) the simulation returns normally with an
empty-column matrix, and it fails with no error at all. -/
theorem C2_counterexample_no_validation :
    simulate_log_return_paths 100 1 0 1 0 = Except.ok [[]]
    ∧ ¬ ∃ e, simulate_log_return_paths 100 1 0 1 0 = Except.error e := by
  have h1 : simulate_log_return_paths 100 1 0 1 0 = Except.ok [[]] := by rfl
  refine ⟨h1, ?_⟩
  rintro ⟨e, he⟩
  rw [h1] at he
  exact Except.noConfusion he

/-- C2 amended: the simulation performs no validation of its own: for every
days_to_expiry ≥ 0 and n_paths ≥ 0 it returns normally with no configuration
error, and a negative forward_variance is silently converted to a NaN-filled
matrix (np.sqrt of a negative float) rather than reported, while a
non-negative forward_variance yields finite entries. -/
theorem C2_no_validation_nan_propagation (spot forward_variance : ℚ)
    (days_to_expiry n_paths seed : ℤ) (hd : 0 ≤ days_to_expiry) (hn : 0 ≤ n_paths) :
    ∃ m, simulate_log_return_paths spot forward_variance days_to_expiry n_paths seed
        = Except.ok m
      ∧ (forward_variance < 0 → ∀ row ∈ m, ∀ x ∈ row, x = none)
      ∧ (0 ≤ forward_variance → ∀ row ∈ m, ∀ x ∈ row, x ≠ none) := by
  refine ⟨(List.range n_paths.toNat).map (fun p =>
    (List.range days_to_expiry.toNat).map (fun j =>
      normalDraw forward_variance seed (p * days_to_expiry.toNat + j))), ?_, ?_, ?_⟩
  · unfold simulate_log_return_paths
    rw [if_neg (by omega)]
  · intro hneg row hrow x hx
    simp only [List.mem_map, List.mem_range] at hrow
    obtain ⟨p, _, rfl⟩ := hrow
    simp only [List.mem_map, List.mem_range] at hx
    obtain ⟨j, _, rfl⟩ := hx
    unfold normalDraw
    rw [if_pos hneg]
  · intro hpos row hrow x hx
    simp only [List.mem_map, List.mem_range] at hrow
    obtain ⟨p, _, rfl⟩ := hrow
    simp only [List.mem_map, List.mem_range] at hx
    obtain ⟨j, _, rfl⟩ := hx
    unfold normalDraw
    rw [if_neg (not_lt.mpr hpos)]
    exact Option.some_ne_none _

/-- Witness for the amended C2 at spot = 100, forward_variance = -1,
days_to_expiry = 1, n_paths = 1, seed = 0: the output exists and is NaN
filled. -/
theorem C2_no_validation_nan_propagation_witness :
    ((0:ℤ) ≤ 1 ∧ (0:ℤ) ≤ 1)
    ∧ ∃ m, simulate_log_return_paths 100 (-1) 1 1 0 = Except.ok m
      ∧ ((-1:ℚ) < 0 → ∀ row ∈ m, ∀ x ∈ row, x = none)
      ∧ ((0:ℚ) ≤ -1 → ∀ row ∈ m, ∀ x ∈ row, x ≠ none) :=
  ⟨⟨by decide, by decide⟩,
    C2_no_validation_nan_propagation 100 (-1) 1 1 0 (by decide) (by decide)⟩

end SCGE
